import Mathlib

/-!
Verification of the health-assistant backend (`app.py` / `db_manager.py`).

The SQLite store is shallowly embedded as lists of rows (in rowid /
insertion order); each Flask endpoint becomes a pure function from its
JSON-body fields and the store to a response together with the new store.
Conventions used throughout, mirroring the source:

* JSON string fields are Lean `String`s; a missing or `null` field is the
  empty string, since the handlers only test them for Python truthiness
  (`data.get(field)`), and `""`/absent/`None` are all falsy.
* `LOWER(...)` in SQL and Python `str.lower()` are both modelled by
  `lowerStr` (ASCII lowercasing, exactly SQLite's `LOWER`; Python agrees
  on ASCII), and Python `str.strip()` by `trimStr`.
* `AUTOINCREMENT` primary keys are modelled by `next…` counters in the
  store; new rows are appended at the end of the row list, so list order
  is rowid order, which is the scan order of an unordered `SELECT`
  (`fetchone` = `List.find?`).
* `TIMESTAMP DEFAULT CURRENT_TIMESTAMP` columns (`created_at`,
  `booked_at`, `updated_at`, `timestamp`) are wall-clock values outside
  the embedding and are dropped from the row types; `ORDER BY created_at
  DESC` is modelled as reverse insertion order (rows are stamped at
  insertion time).
* `hashlib.sha256(...).hexdigest()` is an opaque parameter
  `hp : String → String`: every theorem below holds for an arbitrary
  (deterministic) hash function, in particular for SHA-256.
* The `get_db` context manager commits on normal exit and rolls back when
  an exception escapes the `with` block; handlers that return an error
  response from inside the block have performed no net write at that
  point, so an error response always leaves the store unchanged, which is
  what the atomicity theorem below states.
-/

/-- ASCII lowercasing of one character, as SQLite `LOWER` does it
(and as Python `str.lower()` does on ASCII): `A`..`Z` map to `a`..`z`,
everything else is unchanged.  This is exactly `Char.toLower`. -/
def lowerChar (c : Char) : Char := Char.toLower c

/-- Model of Python `str.lower()` / SQLite `LOWER(...)` (ASCII). -/
def lowerStr (s : String) : String := ⟨s.data.map lowerChar⟩

/-- Model of Python `str.strip()`: drop leading and trailing whitespace. -/
def trimStr (s : String) : String :=
  ⟨((s.data.dropWhile Char.isWhitespace).reverse.dropWhile Char.isWhitespace).reverse⟩

/-- The characters of `email.split("@")[1]` in Python: the text between
the first `@` and the following `@` (or the end of the string).  Only
meaningful when the string contains an `@`, which is checked first. -/
def emailDomainPart (l : List Char) : List Char :=
  ((l.dropWhile (fun c => !(c == '@'))).drop 1).takeWhile (fun c => !(c == '@'))

/-- The email-format validation of `signup`:
`"@" not in email or "." not in email.split("@")[1]` rejects. -/
def validEmail (e : String) : Bool :=
  e.data.contains '@' && (emailDomainPart e.data).contains '.'

/-- Python substring test `needle in hay`, on character lists. -/
def containsSub (needle : List Char) : List Char → Bool
  | [] => needle.isEmpty
  | c :: t => needle.isPrefixOf (c :: t) || containsSub needle t

/-- A row of the `users` table (minus `created_at`, see the header). -/
structure User where
  id : Nat
  name : String
  email : String
  password : String
  age : String
  bio : String
deriving Repr, DecidableEq

/-- A row of the `appointments` table (minus `booked_at`). -/
structure Appointment where
  id : Nat
  user_email : String
  doctor : String
  date : String
  time : String
deriving Repr, DecidableEq

/-- A row of the `medications` table (minus `created_at`).  `duration` is
stored as whatever JSON value arrived (SQLite is dynamically typed); it is
carried as an opaque string. -/
structure Medication where
  id : Nat
  user_email : String
  name : String
  dosage : String
  frequency : String
  duration : String
deriving Repr, DecidableEq

/-- The optional payload columns of a `health_records` row; all of them
may be null (`Option`).  `height`/`weight` (SQL `REAL`) are carried as
opaque values, never computed with. -/
structure HRFields where
  blood_group : Option String
  height : Option String
  weight : Option String
  emergency_name : Option String
  emergency_relation : Option String
  emergency_phone : Option String
  medical_conditions : Option String
  allergies : Option String
deriving Repr, DecidableEq

/-- A row of the `health_records` table (minus `updated_at`). -/
structure HealthRecord where
  id : Nat
  user_email : String
  fields : HRFields
deriving Repr, DecidableEq

/-- A row of the `activity_logs` table (minus `timestamp`). -/
structure ActivityLog where
  id : Nat
  user_email : String
  action : String
  details : Option String
deriving Repr, DecidableEq

/-- The whole SQLite database: one list of rows per table, in rowid
order, plus the `AUTOINCREMENT` counters. -/
structure Db where
  users : List User
  appointments : List Appointment
  medications : List Medication
  health_records : List HealthRecord
  activity_logs : List ActivityLog
  next_user_id : Nat
  next_appt_id : Nat
  next_med_id : Nat
  next_hr_id : Nat
  next_log_id : Nat
deriving Repr, DecidableEq

/-- A fresh database, as `create_database` leaves it. -/
def emptyDb : Db :=
  { users := [], appointments := [], medications := [], health_records := []
    activity_logs := [], next_user_id := 1, next_appt_id := 1, next_med_id := 1
    next_hr_id := 1, next_log_id := 1 }

/-- The uniform `{"status": ..., "msg": ...}` JSON response body. -/
inductive Resp where
  | success (msg : String)
  | error (msg : String)
deriving Repr, DecidableEq

/-- Whether a response is `{"status": "error", ...}`. -/
def Resp.isError : Resp → Bool
  | .success _ => false
  | .error _ => true

/-- Append a row to `activity_logs` (the `INSERT INTO activity_logs`
statements; `details` is null when the column is omitted). -/
def addLog (em action : String) (details : Option String) (s : Db) : Db :=
  { s with
    activity_logs := s.activity_logs ++ [⟨s.next_log_id, em, action, details⟩]
    next_log_id := s.next_log_id + 1 }

/-- The `/signup` handler.  `hp` is the password hash (SHA-256). -/
def signup (hp : String → String) (name email password : String) (s : Db) :
    Resp × Db :=
  if name = "" ∨ email = "" ∨ password = "" then
    (.error "All fields are required", s)
  else
    let em := lowerStr (trimStr email)
    if ¬ validEmail em then (.error "Invalid email format", s)
    else if password.length < 6 then
      (.error "Password must be at least 6 characters", s)
    else if (s.users.find? (fun u => lowerStr u.email == em)).isSome then
      (.error "Email already registered", s)
    else
      let s1 := { s with
        users := s.users ++ [⟨s.next_user_id, trimStr name, em, hp password, "", ""⟩]
        next_user_id := s.next_user_id + 1 }
      let s2 := addLog em "signup" (some ("New user registered: " ++ name)) s1
      (.success "Account created successfully! Please login.", s2)

/-- The public user payload `/login` returns on success: exactly the
columns `id, name, email, age, bio` — by construction there is no
password field in this type. -/
structure PublicUser where
  id : Nat
  name : String
  email : String
  age : String
  bio : String
deriving Repr, DecidableEq

/-- Result of the `/login` handler. -/
inductive LoginResult where
  | user (u : PublicUser)
  | error (msg : String)
deriving Repr, DecidableEq

/-- The `/login` handler. -/
def login (hp : String → String) (email password : String) (s : Db) :
    LoginResult × Db :=
  if email = "" ∨ password = "" then (.error "Email and password required", s)
  else
    let em := lowerStr (trimStr email)
    match s.users.find? (fun u => lowerStr u.email == em) with
    | none => (.error "Email not found", s)
    | some u =>
      if u.password ≠ hp password then (.error "Invalid password", s)
      else
        (.user ⟨u.id, u.name, u.email, u.age, u.bio⟩, addLog em "login" none s)

/-- The `/profile/save` handler.  `name`, `age`, `bio` default to `""`
when absent (`data.get(..., "")`); the `UPDATE` runs first and the
rowcount decides between error and success, exactly as in the source
(note: this endpoint does not strip the email). -/
def save_profile (email name age bio : String) (s : Db) : Resp × Db :=
  if email = "" then (.error "Email required", s)
  else
    let em := lowerStr email
    let users' := s.users.map
      (fun u => if lowerStr u.email == em then
          { u with name := name, age := age, bio := bio } else u)
    let rowcount := (s.users.filter (fun u => lowerStr u.email == em)).length
    let s1 := { s with users := users' }
    if rowcount = 0 then (.error "User not found", s1)
    else (.success "Profile updated successfully", addLog em "profile_update" none s1)

/-- The `/appointment/add` handler: the slot-availability check matches
on `doctor`, `date`, `time` only (not on the requesting user). -/
def add_appointment (email doctor date time : String) (s : Db) : Resp × Db :=
  if email = "" ∨ doctor = "" ∨ date = "" ∨ time = "" then
    (.error "All fields required", s)
  else if (s.appointments.find?
      (fun a => a.doctor == doctor && a.date == date && a.time == time)).isSome then
    (.error "This time slot is already booked. Please choose another time.", s)
  else
    let s1 := { s with
      appointments := s.appointments ++
        [⟨s.next_appt_id, lowerStr email, doctor, date, time⟩]
      next_appt_id := s.next_appt_id + 1 }
    (.success "Appointment booked successfully!",
      addLog (lowerStr email) "appointment_booked"
        (some (doctor ++ " on " ++ date ++ " at " ++ time)) s1)

/-- Row order produced by `ORDER BY date DESC, time DESC`: the earlier
row is `≥` the later one in the lexicographic (date, time) order.
SQLite compares `TEXT` with `memcmp` on UTF-8 bytes, which is the
codepoint-lexicographic order `String.lt` — plain string comparison, not
calendar-aware. -/
def apptGE (a b : Appointment) : Prop :=
  b.date < a.date ∨ (b.date = a.date ∧ b.time ≤ a.time)

instance : DecidableRel apptGE := fun a b => by
  unfold apptGE; exact inferInstance

/-- The `/appointment/get` handler: `[]` when the email field is falsy,
else the case-insensitive matches sorted by `date DESC, time DESC`
(ties beyond that are unspecified by SQL; a stable sort realizes one
admissible order). -/
def get_appointments (email : String) (s : Db) : List Appointment :=
  if email = "" then []
  else
    List.insertionSort apptGE
      (s.appointments.filter (fun a => lowerStr a.user_email == lowerStr email))

/-- The `/appointment/delete/<id>` handler: `DELETE ... WHERE id = ? AND
LOWER(user_email) = ?` (email defaults to `""` and is not stripped), and
the rowcount decides between error and success. -/
def delete_appointment (aid : Nat) (email : String) (s : Db) : Resp × Db :=
  let em := lowerStr email
  let rowcount := (s.appointments.filter
    (fun a => a.id == aid && lowerStr a.user_email == em)).length
  let remaining := s.appointments.filter
    (fun a => !(a.id == aid && lowerStr a.user_email == em))
  let s1 := { s with appointments := remaining }
  if rowcount = 0 then (.error "Appointment not found", s1)
  else
    (.success "Appointment cancelled",
      addLog em "appointment_cancelled"
        (some ("Appointment ID: " ++ toString aid)) s1)

/-- The `/medication/add` handler. -/
def add_medication (email name dosage frequency duration : String) (s : Db) :
    Resp × Db :=
  if email = "" ∨ name = "" ∨ dosage = "" ∨ frequency = "" ∨ duration = "" then
    (.error "All fields required", s)
  else
    let s1 := { s with
      medications := s.medications ++
        [⟨s.next_med_id, lowerStr email, name, dosage, frequency, duration⟩]
      next_med_id := s.next_med_id + 1 }
    (.success "Medication added successfully!",
      addLog (lowerStr email) "medication_added"
        (some (name ++ " - " ++ dosage)) s1)

/-- The `/medication/get` handler: `[]` when the email is falsy, else
case-insensitive matches `ORDER BY created_at DESC` (modelled as reverse
insertion order, rows being timestamped at insertion). -/
def get_medications (email : String) (s : Db) : List Medication :=
  if email = "" then []
  else (s.medications.filter (fun m => lowerStr m.user_email == lowerStr email)).reverse

/-- The `/medication/delete/<id>` handler (no activity-log write in the
source for this one). -/
def delete_medication (mid : Nat) (email : String) (s : Db) : Resp × Db :=
  let em := lowerStr email
  let rowcount := (s.medications.filter
    (fun m => m.id == mid && lowerStr m.user_email == em)).length
  let remaining := s.medications.filter
    (fun m => !(m.id == mid && lowerStr m.user_email == em))
  let s1 := { s with medications := remaining }
  if rowcount = 0 then (.error "Medication not found", s1)
  else (.success "Medication deleted", s1)

/-- The `/health_records/save` handler: upsert keyed on the
case-insensitive email (update the payload columns in place if a row
matches, else insert a new row with the lowercased email). -/
def save_health_records (email : String) (f : HRFields) (s : Db) : Resp × Db :=
  if email = "" then (.error "Email required", s)
  else
    let em := lowerStr email
    if (s.health_records.find? (fun r => lowerStr r.user_email == em)).isSome then
      let updated := s.health_records.map
        (fun r => if lowerStr r.user_email == em then { r with fields := f } else r)
      (.success "Health records saved", { s with health_records := updated })
    else
      (.success "Health records saved",
        { s with
          health_records := s.health_records ++ [⟨s.next_hr_id, em, f⟩]
          next_hr_id := s.next_hr_id + 1 })

/-- The `/health_records/get` handler: empty object (`none`) when the
email is falsy or no row matches, else the single matching row. -/
def get_health_records (email : String) (s : Db) : Option HealthRecord :=
  if email = "" then none
  else s.health_records.find? (fun r => lowerStr r.user_email == lowerStr email)

/-- Modelled from the spec: no endpoint of the repository deletes a user
row; the schema in `init_db`/`create_database` declares `FOREIGN KEY
(user_email) REFERENCES users(email) ON DELETE CASCADE` on all four
dependent tables, so deleting a user row removes every dependent row
whose `user_email` equals the deleted user's email. -/
def delete_user (email : String) (s : Db) : Db :=
  { s with
    users := s.users.filter (fun u => !(u.email == email))
    appointments := s.appointments.filter (fun a => !(a.user_email == email))
    medications := s.medications.filter (fun m => !(m.user_email == email))
    health_records := s.health_records.filter (fun r => !(r.user_email == email))
    activity_logs := s.activity_logs.filter (fun l => !(l.user_email == email)) }

/-- The chatbot's keyword → canned-response table, in the source's
(Python 3.7+ insertion-preserving) dict iteration order. -/
def chatResponses : List (String × String) :=
  [("fever", "🌡️ For fever: Drink plenty of water, rest well, and take paracetamol 500mg if needed. If fever persists above 102°F or lasts more than 3 days, consult a doctor immediately."),
   ("headache", "💆 For headache: Rest in a quiet, dark room, stay hydrated, reduce screen time, and try a cold compress on your forehead. If severe or persistent, consult a doctor."),
   ("cold", "🤧 For cold: Try steam inhalation, drink warm fluids like herbal tea or honey-lemon water, get adequate rest, and maintain good hygiene. Usually resolves in 7-10 days."),
   ("cough", "😷 For cough: Stay hydrated, use honey (for adults), avoid irritants like smoke, and try warm liquids with ginger. See a doctor if it persists beyond 3 weeks or worsens."),
   ("stomach", "🤢 For stomach issues: Eat bland foods (BRAT diet: Bananas, Rice, Applesauce, Toast), stay hydrated with electrolyte solutions, avoid spicy/fatty foods. If severe pain, vomiting blood, or high fever present, seek immediate medical attention."),
   ("pain", "💊 For general pain: Rest the affected area, apply ice for acute injuries or heat for muscle tension, consider over-the-counter pain relief (as directed). Persistent or severe pain requires medical evaluation."),
   ("stress", "🧘 For stress management: Practice deep breathing exercises, engage in regular physical activity, maintain 7-8 hours of sleep, talk to someone you trust. Consider meditation, yoga, or professional counseling."),
   ("sleep", "😴 For better sleep: Maintain consistent sleep schedule (same bedtime/wake time), avoid screens 1 hour before bed, keep room cool (60-67°F) and dark, avoid caffeine after 2 PM, try relaxation techniques."),
   ("diet", "🥗 For healthy diet: Include 5 servings of fruits and vegetables daily, choose whole grains over refined, eat lean proteins (fish, chicken, legumes), limit processed foods and added sugars. Drink 8 glasses of water daily."),
   ("exercise", "🏃 For exercise: Aim for 150 minutes of moderate activity or 75 minutes of vigorous activity weekly. Mix cardio (walking, cycling) and strength training. Start slowly, warm up properly, and listen to your body."),
   ("diabetes", "🩺 For diabetes management: Monitor blood sugar regularly, follow prescribed medication, eat balanced meals with controlled carbs, exercise regularly, maintain healthy weight. Regular check-ups are crucial."),
   ("blood pressure", "❤️ For blood pressure: Reduce sodium intake, eat potassium-rich foods (bananas, spinach), exercise regularly, maintain healthy weight, limit alcohol, manage stress. Monitor regularly and follow doctor\u0027s advice."),
   ("weight", "⚖️ For healthy weight: Create moderate calorie deficit (500 cal/day for 1 lb/week loss), eat protein-rich foods, increase fiber intake, stay hydrated, get adequate sleep, combine diet with exercise."),
   ("anxiety", "😰 For anxiety: Practice mindfulness and deep breathing, maintain regular exercise routine, limit caffeine and alcohol, establish healthy sleep habits, consider talking to a mental health professional.")]

/-- The chatbot's `for keyword, response in responses.items(): if keyword
in q: reply = response; break` loop: the response of the first keyword
occurring as a substring of the (lowercased) question, if any. -/
def firstReply : List (String × String) → List Char → Option String
  | [], _ => none
  | (k, r) :: rest, q =>
    if containsSub k.data q then some r else firstReply rest q

/-- The greeting words of the chatbot's first fallback rule. -/
def greetingWords : List String := ["hello", "hi", "hey"]

/-- The chatbot's fallback chain when no table keyword matched: greeting,
then "appointment", then "medication"/"medicine", then the generic reply,
in that order. -/
def chatFallback (q : List Char) : String :=
  if greetingWords.any (fun w => containsSub w.data q) then
    "👋 Hello! I\u0027m your AI Health Assistant. I can help you with questions about common health issues like fever, headache, cold, diet, exercise, stress, sleep, and more. What would you like to know?"
  else if containsSub "appointment".data q then
    "📅 To book an appointment, please go to the \u0027Appointments\u0027 tab where you can select a doctor, date, and time slot. Our doctors are available from 9 AM to 5 PM, Monday to Saturday."
  else if containsSub "medication".data q || containsSub "medicine".data q then
    "💊 For medication reminders, visit the \u0027Medications\u0027 tab where you can add your prescriptions and set up automatic reminders. Never miss a dose!"
  else
    "🤔 I\u0027m not sure about that specific question. For personalized medical advice, please consult a qualified healthcare professional. You can also book an appointment with our doctors through the Appointments tab. Try asking about: fever, headache, cold, diet, exercise, stress, or sleep."

/-- The `/chat` handler: lowercase the question, take the first keyword
match from the table, else fall back. -/
def chat (question : String) : String :=
  let q := lowerStr question
  match firstReply chatResponses q.data with
  | some r => r
  | none => chatFallback q.data

/-- Packing a codepoint below the surrogate range and reading it back is
the identity. -/
theorem char_toNat_ofNat_of_lt {n : Nat} (h : n < 55296) :
    (Char.ofNat n).toNat = n := by
  unfold Char.ofNat
  rw [dif_pos (Or.inl h)]
  rfl

/-- ASCII lowercasing is idempotent on characters. -/
theorem lowerChar_idem (c : Char) : lowerChar (lowerChar c) = lowerChar c := by
  simp only [lowerChar, Char.toLower]
  by_cases h : Char.toNat c ≥ 65 ∧ Char.toNat c ≤ 90
  · rw [if_pos h]
    have h2 : (Char.ofNat (Char.toNat c + 32)).toNat = Char.toNat c + 32 :=
      char_toNat_ofNat_of_lt (by omega)
    rw [if_neg (by rw [h2]; omega)]
  · rw [if_neg h, if_neg h]

/-- ASCII lowercasing is idempotent on strings: `LOWER` applied to an
already-normalized email is the identity. -/
theorem lowerStr_idem (s : String) : lowerStr (lowerStr s) = lowerStr s := by
  show String.mk ((s.data.map lowerChar).map lowerChar) = String.mk (s.data.map lowerChar)
  rw [List.map_map]
  exact congrArg String.mk (List.map_congr_left (fun a _ => lowerChar_idem a))

/-- A row surviving `DELETE FROM t WHERE p` when no row matched: the
remaining table is the whole table. -/
theorem filter_not_eq_self_of_no_match {α : Type} (p : α → Bool) (l : List α)
    (h : (l.filter p).length = 0) : l.filter (fun a => !(p a)) = l := by
  rw [List.length_eq_zero, List.filter_eq_nil_iff] at h
  rw [List.filter_eq_self]
  intro a ha
  simpa using h a ha

/-- An `UPDATE t SET ... WHERE p` that matched no row leaves the table
unchanged. -/
theorem map_ite_eq_self {α : Type} (p : α → Bool) (f : α → α) (l : List α)
    (h : ∀ a ∈ l, p a = false) :
    l.map (fun a => if p a then f a else a) = l := by
  induction l with
  | nil => rfl
  | cons a t ih =>
    have ha := h a (List.mem_cons_self a t)
    simp only [List.map_cons, ha, Bool.false_eq_true, if_false]
    rw [ih (fun b hb => h b (List.mem_cons_of_mem a hb))]

/-- In a table where no two rows both satisfy `p`, selecting by `p` when
some member `r0` satisfies it returns exactly `[r0]`. -/
theorem filter_eq_singleton_of_pairwise {α : Type} (p : α → Bool) :
    ∀ (l : List α), l.Pairwise (fun a b => ¬(p a = true ∧ p b = true)) →
    ∀ r0 ∈ l, p r0 = true → l.filter p = [r0] := by
  intro l
  induction l with
  | nil => intro _ r0 hr0 _; exact absurd hr0 (List.not_mem_nil r0)
  | cons a t ih =>
    intro hpw r0 hr0 hp
    rw [List.pairwise_cons] at hpw
    rcases List.mem_cons.mp hr0 with rfl | hmem
    · rw [List.filter_cons_of_pos hp]
      have : t.filter p = [] := by
        rw [List.filter_eq_nil_iff]
        intro b hb hpb
        exact hpw.1 b hb ⟨hp, hpb⟩
      rw [this]
    · have hpa : p a = false := by
        rcases Bool.eq_false_or_eq_true (p a) with ht | hf
        · exact absurd ⟨ht, hp⟩ (hpw.1 r0 hmem)
        · exact hf
      rw [List.filter_cons_of_neg (by simp [hpa])]
      exact ih hpw.2 r0 hmem hp

/-- In a table whose rows have pairwise distinct keys, a member with the
same key as member `a` is `a` itself (primary-key lookup is unambiguous). -/
theorem eq_of_mem_of_pairwise_key {α : Type} (f : α → Nat) :
    ∀ (l : List α), l.Pairwise (fun x y => f x ≠ f y) →
    ∀ a ∈ l, ∀ x ∈ l, f x = f a → x = a := by
  intro l
  induction l with
  | nil => intro _ a ha; exact absurd ha (List.not_mem_nil a)
  | cons b t ih =>
    intro hpw a ha x hx hfx
    rw [List.pairwise_cons] at hpw
    rcases List.mem_cons.mp ha with rfl | hamem
    · rcases List.mem_cons.mp hx with rfl | hxmem
      · rfl
      · exact absurd hfx.symm (hpw.1 x hxmem)
    · rcases List.mem_cons.mp hx with rfl | hxmem
      · exact absurd hfx (hpw.1 a hamem)
      · exact ih hpw.2 a hamem x hxmem hfx

/-- C1: booking an already-taken (doctor, date, time) slot fails with the
ConflictError message and inserts nothing — the store is returned
unchanged — for every requesting email (the existence check does not
mention the user's email), provided the request passes the required-field
check. -/
theorem booked_slot_conflicts (e d dt t : String) (s : Db) (a : Appointment)
    (ha : a ∈ s.appointments) (had : a.doctor = d) (hadt : a.date = dt)
    (hat : a.time = t)
    (he : e ≠ "") (hd : d ≠ "") (hdt : dt ≠ "") (ht : t ≠ "") :
    add_appointment e d dt t s =
      (.error "This time slot is already booked. Please choose another time.", s) := by
  unfold add_appointment
  rw [if_neg (by simp [he, hd, hdt, ht])]
  rw [if_pos (List.find?_isSome.mpr ⟨a, ha, by simp [had, hadt, hat]⟩)]

/-- A store already holding one appointment, used to exercise the
double-booking theorem. -/
def dbBooked : Db :=
  { emptyDb with
    appointments := [⟨1, "a@x.com", "Dr. A", "2024-12-15", "10:00 AM"⟩]
    next_appt_id := 2 }

/-- Witness for C1: a different user books the identical slot and is
rejected with the store unchanged. -/
theorem booked_slot_conflicts_witness :
    add_appointment "b@y.com" "Dr. A" "2024-12-15" "10:00 AM" dbBooked =
      (.error "This time slot is already booked. Please choose another time.",
        dbBooked) :=
  booked_slot_conflicts "b@y.com" "Dr. A" "2024-12-15" "10:00 AM" dbBooked
    ⟨1, "a@x.com", "Dr. A", "2024-12-15", "10:00 AM"⟩
    (by decide) rfl rfl rfl (by decide) (by decide) (by decide) (by decide)

/-- Every run of `signup` either succeeds or leaves the store unchanged. -/
theorem signup_cases (hp : String → String) (n e p : String) (s : Db) :
    (signup hp n e p s).1.isError = false ∨ (signup hp n e p s).2 = s := by
  simp only [signup]
  split
  · exact Or.inr rfl
  · split
    · exact Or.inr rfl
    · split
      · exact Or.inr rfl
      · split
        · exact Or.inr rfl
        · exact Or.inl rfl

/-- Every run of `save_profile` either succeeds or leaves the store
unchanged (the zero-row `UPDATE` performed before the error return does
not change any row). -/
theorem save_profile_cases (e n a b : String) (s : Db) :
    (save_profile e n a b s).1.isError = false ∨ (save_profile e n a b s).2 = s := by
  simp only [save_profile]
  split
  · exact Or.inr rfl
  · split
    · next h0 =>
      refine Or.inr ?_
      have hall : ∀ u ∈ s.users, (lowerStr u.email == lowerStr e) = false := by
        have hnil := List.filter_eq_nil_iff.mp (List.length_eq_zero.mp h0)
        intro u hu
        simpa using hnil u hu
      show ({ s with users := _ } : Db) = s
      rw [map_ite_eq_self _ _ _ hall]
    · exact Or.inl rfl

/-- Every run of `add_appointment` either succeeds or leaves the store
unchanged. -/
theorem add_appointment_cases (e d dt t : String) (s : Db) :
    (add_appointment e d dt t s).1.isError = false ∨
      (add_appointment e d dt t s).2 = s := by
  simp only [add_appointment]
  split
  · exact Or.inr rfl
  · split
    · exact Or.inr rfl
    · exact Or.inl rfl

/-- Every run of `delete_appointment` either succeeds or leaves the store
unchanged (a zero-row `DELETE` removes nothing). -/
theorem delete_appointment_cases (aid : Nat) (e : String) (s : Db) :
    (delete_appointment aid e s).1.isError = false ∨
      (delete_appointment aid e s).2 = s := by
  simp only [delete_appointment]
  split
  · next h0 =>
    refine Or.inr ?_
    show ({ s with appointments := _ } : Db) = s
    rw [filter_not_eq_self_of_no_match _ _ h0]
  · exact Or.inl rfl

/-- Every run of `add_medication` either succeeds or leaves the store
unchanged. -/
theorem add_medication_cases (e n d f du : String) (s : Db) :
    (add_medication e n d f du s).1.isError = false ∨
      (add_medication e n d f du s).2 = s := by
  simp only [add_medication]
  split
  · exact Or.inr rfl
  · exact Or.inl rfl

/-- Every run of `delete_medication` either succeeds or leaves the store
unchanged. -/
theorem delete_medication_cases (mid : Nat) (e : String) (s : Db) :
    (delete_medication mid e s).1.isError = false ∨
      (delete_medication mid e s).2 = s := by
  simp only [delete_medication]
  split
  · next h0 =>
    refine Or.inr ?_
    show ({ s with medications := _ } : Db) = s
    rw [filter_not_eq_self_of_no_match _ _ h0]
  · exact Or.inl rfl

/-- Every run of `save_health_records` either succeeds or leaves the
store unchanged. -/
theorem save_health_records_cases (e : String) (f : HRFields) (s : Db) :
    (save_health_records e f s).1.isError = false ∨
      (save_health_records e f s).2 = s := by
  simp only [save_health_records]
  split
  · exact Or.inr rfl
  · split
    · exact Or.inl rfl
    · exact Or.inl rfl

/-- C6: atomicity of the write endpoints.  Whenever a write operation
(signup, profile save, booking, cancel, medication add/delete,
health-record save) produces an error response, the store it returns is
exactly the store it started from — no partial write is visible.  (Error
responses returned from inside the `with get_db()` block have performed
no net write, and an exception escaping the block triggers
`conn.rollback()`, which this pure embedding renders by returning the
original store.) -/
theorem write_error_leaves_store_unchanged :
    (∀ hp n e p s, (signup hp n e p s).1.isError = true →
      (signup hp n e p s).2 = s) ∧
    (∀ e n a b s, (save_profile e n a b s).1.isError = true →
      (save_profile e n a b s).2 = s) ∧
    (∀ e d dt t s, (add_appointment e d dt t s).1.isError = true →
      (add_appointment e d dt t s).2 = s) ∧
    (∀ aid e s, (delete_appointment aid e s).1.isError = true →
      (delete_appointment aid e s).2 = s) ∧
    (∀ e n d f du s, (add_medication e n d f du s).1.isError = true →
      (add_medication e n d f du s).2 = s) ∧
    (∀ mid e s, (delete_medication mid e s).1.isError = true →
      (delete_medication mid e s).2 = s) ∧
    (∀ e f s, (save_health_records e f s).1.isError = true →
      (save_health_records e f s).2 = s) := by
  refine ⟨fun hp n e p s h => ?_, fun e n a b s h => ?_, fun e d dt t s h => ?_,
    fun aid e s h => ?_, fun e n d f du s h => ?_, fun mid e s h => ?_,
    fun e f s h => ?_⟩
  · rcases signup_cases hp n e p s with hc | hc
    · rw [h] at hc; exact absurd hc (by decide)
    · exact hc
  · rcases save_profile_cases e n a b s with hc | hc
    · rw [h] at hc; exact absurd hc (by decide)
    · exact hc
  · rcases add_appointment_cases e d dt t s with hc | hc
    · rw [h] at hc; exact absurd hc (by decide)
    · exact hc
  · rcases delete_appointment_cases aid e s with hc | hc
    · rw [h] at hc; exact absurd hc (by decide)
    · exact hc
  · rcases add_medication_cases e n d f du s with hc | hc
    · rw [h] at hc; exact absurd hc (by decide)
    · exact hc
  · rcases delete_medication_cases mid e s with hc | hc
    · rw [h] at hc; exact absurd hc (by decide)
    · exact hc
  · rcases save_health_records_cases e f s with hc | hc
    · rw [h] at hc; exact absurd hc (by decide)
    · exact hc

/-- Witness for C6: one concrete failing call per write endpoint, each
leaving the store exactly as it was. -/
theorem write_error_leaves_store_unchanged_witness :
    (signup (fun x => x) "" "a@x.com" "secret1" dbBooked).2 = dbBooked ∧
    (save_profile "ghost@x.com" "G" "9" "b" dbBooked).2 = dbBooked ∧
    (add_appointment "b@y.com" "Dr. A" "2024-12-15" "10:00 AM" dbBooked).2 = dbBooked ∧
    (delete_appointment 77 "a@x.com" dbBooked).2 = dbBooked ∧
    (add_medication "a@x.com" "" "1mg" "daily" "30" dbBooked).2 = dbBooked ∧
    (delete_medication 1 "a@x.com" dbBooked).2 = dbBooked ∧
    (save_health_records "" ⟨none, none, none, none, none, none, none, none⟩ dbBooked).2 = dbBooked :=
  ⟨write_error_leaves_store_unchanged.1 _ _ _ _ _ (by decide),
   write_error_leaves_store_unchanged.2.1 _ _ _ _ _ (by decide),
   write_error_leaves_store_unchanged.2.2.1 _ _ _ _ _ (by decide),
   write_error_leaves_store_unchanged.2.2.2.1 _ _ _ (by decide),
   write_error_leaves_store_unchanged.2.2.2.2.1 _ _ _ _ _ _ (by decide),
   write_error_leaves_store_unchanged.2.2.2.2.2.1 _ _ _ (by decide),
   write_error_leaves_store_unchanged.2.2.2.2.2.2 _ _ _ (by decide)⟩

/-- C5: cancellation is ownership-scoped.  First part: any row removed by
`delete_appointment` matched both the requested id and the
case-insensitive email.  Second part: when the appointment carrying the
requested id (ids being pairwise distinct, as rowids are) belongs to a
different user, the call fails with the NotFoundError response and the
store — including that appointment — is unchanged. -/
theorem cancel_requires_id_and_owner :
    (∀ (aid : Nat) (e : String) (s : Db) (x : Appointment),
      x ∈ s.appointments → x ∉ (delete_appointment aid e s).2.appointments →
      x.id = aid ∧ lowerStr x.user_email = lowerStr e) ∧
    (∀ (aid : Nat) (e : String) (s : Db) (a : Appointment),
      s.appointments.Pairwise (fun x y => x.id ≠ y.id) →
      a ∈ s.appointments → a.id = aid → lowerStr a.user_email ≠ lowerStr e →
      delete_appointment aid e s = (.error "Appointment not found", s)) := by
  constructor
  · intro aid e s x hx hnx
    have hfilter : (delete_appointment aid e s).2.appointments =
        s.appointments.filter
          (fun a => !(a.id == aid && lowerStr a.user_email == lowerStr e)) := by
      simp only [delete_appointment]
      split
      · rfl
      · rfl
    rw [hfilter] at hnx
    rcases Bool.eq_false_or_eq_true
        (x.id == aid && lowerStr x.user_email == lowerStr e) with hT | hF
    · simp only [Bool.and_eq_true, beq_iff_eq] at hT
      exact hT
    · exact absurd (List.mem_filter.mpr ⟨hx, by simp [hF]⟩) hnx
  · intro aid e s a hids ha haid hneq
    have hall : ∀ x ∈ s.appointments,
        (x.id == aid && lowerStr x.user_email == lowerStr e) = false := by
      intro x hx
      rcases Bool.eq_false_or_eq_true
          (x.id == aid && lowerStr x.user_email == lowerStr e) with hT | hF
      · exfalso
        simp only [Bool.and_eq_true, beq_iff_eq] at hT
        have hxa : x = a :=
          eq_of_mem_of_pairwise_key (fun y => y.id) s.appointments hids a ha x hx
            (by show x.id = a.id; rw [hT.1, haid])
        exact hneq (by rw [← hxa]; exact hT.2)
      · exact hF
    have hcount : (s.appointments.filter
        (fun x => x.id == aid && lowerStr x.user_email == lowerStr e)).length = 0 := by
      rw [List.length_eq_zero, List.filter_eq_nil_iff]
      intro x hx
      simp [hall x hx]
    simp only [delete_appointment]
    rw [if_pos hcount, filter_not_eq_self_of_no_match _ _ hcount]

/-- Witness for C5: cancelling appointment id 1 (owned by `a@x.com`) as
`b@y.com` fails and changes nothing, while cancelling it as its owner
removes exactly a row matching both id and email. -/
theorem cancel_requires_id_and_owner_witness :
    ((⟨1, "a@x.com", "Dr. A", "2024-12-15", "10:00 AM"⟩ : Appointment).id = 1 ∧
      lowerStr (⟨1, "a@x.com", "Dr. A", "2024-12-15", "10:00 AM"⟩ : Appointment).user_email =
        lowerStr "A@X.com") ∧
    delete_appointment 1 "b@y.com" dbBooked = (.error "Appointment not found", dbBooked) :=
  ⟨cancel_requires_id_and_owner.1 1 "A@X.com" dbBooked
      ⟨1, "a@x.com", "Dr. A", "2024-12-15", "10:00 AM"⟩ (by decide) (by decide),
   cancel_requires_id_and_owner.2 1 "b@y.com" dbBooked
      ⟨1, "a@x.com", "Dr. A", "2024-12-15", "10:00 AM"⟩ (by decide) (by decide)
      rfl (by decide)⟩

/-- C4: a signup whose normalized (trimmed, lowercased) email already
matches a stored user's lowercased email — in particular one differing
only in letter case — fails with the ConflictError response and inserts
nothing; the uniqueness test is exactly lowercased-stored versus
lowercased-trimmed-input.  The other validations (nonempty name, valid
email shape, password length) are assumed to pass so that the duplicate
check is the one that fires. -/
theorem duplicate_email_signup_rejected (hp : String → String) (n e p : String)
    (s : Db) (u : User)
    (hu : u ∈ s.users) (hdup : lowerStr u.email = lowerStr (trimStr e))
    (hn : n ≠ "") (hvalid : validEmail (lowerStr (trimStr e)) = true)
    (hplen : 6 ≤ p.length) :
    signup hp n e p s = (.error "Email already registered", s) := by
  have he : e ≠ "" := by
    intro h
    subst h
    exact absurd hvalid (by decide)
  have hpne : p ≠ "" := by
    intro h
    subst h
    simp [String.length] at hplen
  simp only [signup]
  rw [if_neg (by simp [hn, he, hpne])]
  rw [if_neg (by simp [hvalid])]
  rw [if_neg (by omega)]
  rw [if_pos (List.find?_isSome.mpr ⟨u, hu, by rw [hdup]; simp⟩)]

/-- A store holding the user `a@x.com`, for the duplicate-signup and
login witnesses. -/
def dbUser : Db :=
  { emptyDb with
    users := [⟨1, "Ann", "a@x.com", "secret1", "", ""⟩]
    next_user_id := 2 }

/-- Witness for C4: signing up `A@X.com` when `a@x.com` is stored is
rejected with the store unchanged. -/
theorem duplicate_email_signup_rejected_witness :
    signup (fun x => x) "Bob" "A@X.com" "hunter22" dbUser =
      (.error "Email already registered", dbUser) :=
  duplicate_email_signup_rejected (fun x => x) "Bob" "A@X.com" "hunter22" dbUser
    ⟨1, "Ann", "a@x.com", "secret1", "", ""⟩ (by decide) (by decide) (by decide)
    (by decide) (by decide)

/-- C3: after any successful signup, logging in with the same password
and the same email in any letter case (any input whose trimmed,
lowercased form agrees) succeeds and returns exactly the stored user's
public fields id, name, email, age, bio — the `PublicUser` payload type
has no password field, so the password hash is never returned. -/
theorem signup_then_login_succeeds (hp : String → String) (n e p e2 : String)
    (s : Db)
    (hok : (signup hp n e p s).1.isError = false)
    (he2 : lowerStr (trimStr e2) = lowerStr (trimStr e)) :
    (login hp e2 p (signup hp n e p s).2).1 =
      .user ⟨s.next_user_id, trimStr n, lowerStr (trimStr e), "", ""⟩ := by
  by_cases h1 : n = "" ∨ e = "" ∨ p = ""
  · simp [signup, h1, Resp.isError] at hok
  by_cases h2 : validEmail (lowerStr (trimStr e)) = true
  · by_cases h3 : p.length < 6
    · simp [signup, h1, h2, h3, Resp.isError] at hok
    · by_cases h4 :
        (s.users.find? (fun u => lowerStr u.email == lowerStr (trimStr e))).isSome = true
      · simp [signup, h1, h2, h3, h4, Resp.isError] at hok
      · have hstate : (signup hp n e p s).2 =
            addLog (lowerStr (trimStr e)) "signup"
              (some ("New user registered: " ++ n))
              { s with
                users := s.users ++
                  [⟨s.next_user_id, trimStr n, lowerStr (trimStr e), hp p, "", ""⟩]
                next_user_id := s.next_user_id + 1 } := by
          simp [signup, h1, h2, h3, h4]
        have hpne : p ≠ "" := by
          intro h
          subst h
          exact h3 (by decide)
        have he2ne : e2 ≠ "" := by
          intro h
          subst h
          rw [show lowerStr (trimStr "") = ("" : String) from rfl] at he2
          rw [← he2] at h2
          exact absurd h2 (by decide)
        have hnone : s.users.find? (fun u => lowerStr u.email == lowerStr (trimStr e)) = none :=
          Option.not_isSome_iff_eq_none.mp h4
        rw [hstate]
        simp only [login, addLog]
        rw [if_neg (by simp [he2ne, hpne])]
        rw [he2]
        simp only [List.find?_append, hnone, Option.none_or, List.find?,
          lowerStr_idem, beq_self_eq_true]
        rw [if_neg (by simp)]
  · simp [signup, h1, h2, Resp.isError] at hok

/-- Witness for C3: sign up as " a@x.com", log in as "A@X.COM" with the
same password; the public payload of the stored user comes back. -/
theorem signup_then_login_succeeds_witness :
    (login (fun x => x) "A@X.COM" "secret1"
        (signup (fun x => x) "Ann" " a@x.com" "secret1" emptyDb).2).1 =
      .user ⟨emptyDb.next_user_id, trimStr "Ann", lowerStr (trimStr " a@x.com"), "", ""⟩ :=
  signup_then_login_succeeds (fun x => x) "Ann" " a@x.com" "secret1" "A@X.COM"
    emptyDb (by decide) (by decide)

/-- The at-most-one-row-per-user invariant of the `health_records` table:
no two rows share a case-insensitive user email.  It holds of the fresh
store and is preserved by every save (the table's `UNIQUE(user_email)`
plus always-lowercased inserts). -/
def hrInv (s : Db) : Prop :=
  s.health_records.Pairwise (fun r1 r2 => lowerStr r1.user_email ≠ lowerStr r2.user_email)

/-- One health-record save preserves the at-most-one-row invariant. -/
theorem hrInv_save (e : String) (f : HRFields) (s : Db) (h : hrInv s) :
    hrInv (save_health_records e f s).2 := by
  by_cases he : e = ""
  · have hst : (save_health_records e f s).2 = s := by
      simp [save_health_records, he]
    rw [hst]
    exact h
  · by_cases hf :
      (s.health_records.find? (fun r => lowerStr r.user_email == lowerStr e)).isSome = true
    · have hst : (save_health_records e f s).2.health_records =
          s.health_records.map (fun r =>
            if lowerStr r.user_email == lowerStr e then { r with fields := f } else r) := by
        simp [save_health_records, he, hf]
      show List.Pairwise _ _
      rw [hst, List.pairwise_map]
      refine List.Pairwise.imp ?_ h
      intro a b hab
      have ga : (if lowerStr a.user_email == lowerStr e then
          { a with fields := f } else a).user_email = a.user_email := by
        split <;> rfl
      have gb : (if lowerStr b.user_email == lowerStr e then
          { b with fields := f } else b).user_email = b.user_email := by
        split <;> rfl
      show lowerStr (if lowerStr a.user_email == lowerStr e then
          { a with fields := f } else a).user_email ≠
        lowerStr (if lowerStr b.user_email == lowerStr e then
          { b with fields := f } else b).user_email
      rw [ga, gb]
      exact hab
    · have hst : (save_health_records e f s).2.health_records =
          s.health_records ++ [⟨s.next_hr_id, lowerStr e, f⟩] := by
        simp [save_health_records, he, hf]
      show List.Pairwise _ _
      rw [hst, List.pairwise_append]
      refine ⟨h, List.pairwise_singleton _ _, ?_⟩
      intro a ha b hb
      rw [List.mem_singleton.mp hb]
      have hfn := List.find?_eq_none.mp (Option.not_isSome_iff_eq_none.mp hf) a ha
      show lowerStr a.user_email ≠ lowerStr (lowerStr e)
      rw [lowerStr_idem]
      simpa using hfn

/-- After any health-record save with a nonempty email on an
invariant-satisfying store, the rows selected by that (case-insensitive)
email carry exactly the saved payload, once. -/
theorem save_filter_result (e : String) (f : HRFields) (s : Db)
    (hinv : hrInv s) (he : e ≠ "") :
    ((save_health_records e f s).2.health_records.filter
      (fun r => lowerStr r.user_email == lowerStr e)).map HealthRecord.fields = [f] := by
  by_cases hf :
    (s.health_records.find? (fun r => lowerStr r.user_email == lowerStr e)).isSome = true
  · obtain ⟨r0, hr0mem, hr0p⟩ := List.find?_isSome.mp hf
    have hstate : (save_health_records e f s).2.health_records =
        s.health_records.map (fun r =>
          if lowerStr r.user_email == lowerStr e then { r with fields := f } else r) := by
      simp [save_health_records, he, hf]
    rw [hstate, List.filter_map]
    have hpg : ∀ r ∈ s.health_records,
        ((fun r => lowerStr r.user_email == lowerStr e) ∘ (fun r =>
          if lowerStr r.user_email == lowerStr e then { r with fields := f } else r)) r =
        (fun r : HealthRecord => lowerStr r.user_email == lowerStr e) r := by
      intro r _
      simp only [Function.comp]
      split <;> rfl
    rw [List.filter_congr hpg]
    have hpw : s.health_records.Pairwise (fun a b =>
        ¬((lowerStr a.user_email == lowerStr e) = true ∧
          (lowerStr b.user_email == lowerStr e) = true)) := by
      refine List.Pairwise.imp ?_ hinv
      intro a b hab hcon
      exact hab (by rw [eq_of_beq hcon.1, eq_of_beq hcon.2])
    rw [filter_eq_singleton_of_pairwise _ s.health_records hpw r0 hr0mem hr0p]
    simp [hr0p, eq_of_beq hr0p]
  · have hstate : (save_health_records e f s).2.health_records =
        s.health_records ++ [⟨s.next_hr_id, lowerStr e, f⟩] := by
      simp [save_health_records, he, hf]
    rw [hstate, List.filter_append]
    have h1 : s.health_records.filter
        (fun r => lowerStr r.user_email == lowerStr e) = [] := by
      rw [List.filter_eq_nil_iff]
      intro r hr
      simpa using List.find?_eq_none.mp (Option.not_isSome_iff_eq_none.mp hf) r hr
    rw [h1]
    simp [List.filter, lowerStr_idem]

/-- C2: the store keeps at most one health-record row per
(case-insensitive) user email — the invariant holds after any sequence
of saves on an invariant-satisfying store (such as the fresh one) — and
saving twice for the same nonempty email leaves exactly one row for that
email whose payload is the second save's values. -/
theorem health_record_unique_per_user :
    (∀ (ops : List (String × HRFields)) (s : Db), hrInv s →
      hrInv (ops.foldl (fun st op => (save_health_records op.1 op.2 st).2) s)) ∧
    (∀ (e : String) (f1 f2 : HRFields) (s : Db), hrInv s → e ≠ "" →
      ((save_health_records e f2 (save_health_records e f1 s).2).2.health_records.filter
        (fun r => lowerStr r.user_email == lowerStr e)).map HealthRecord.fields = [f2]) := by
  constructor
  · intro ops
    induction ops with
    | nil => intro s h; exact h
    | cons op rest ih =>
      intro s h
      exact ih _ (hrInv_save op.1 op.2 s h)
  · intro e f1 f2 s hinv he
    exact save_filter_result e f2 _ (hrInv_save e f1 s hinv) he

/-- A concrete health-record payload for the C2 witness. -/
def hrPayload1 : HRFields :=
  ⟨some "O+", some "175", some "70", some "Jane Doe", some "Wife",
    some "+91 9876543210", some "None", some "Peanuts"⟩

/-- A second, different payload for the C2 witness. -/
def hrPayload2 : HRFields :=
  ⟨some "A+", some "165", some "60", some "Tom Smith", some "Husband",
    some "+91 9876543211", some "Asthma", none⟩

/-- Witness for C2: a fold of two saves keeps the invariant from the
fresh store, and saving twice for `a@x.com` leaves one row holding the
second payload. -/
theorem health_record_unique_per_user_witness :
    hrInv ([("a@x.com", hrPayload1), ("A@x.com", hrPayload2)].foldl
      (fun st op => (save_health_records op.1 op.2 st).2) emptyDb) ∧
    ((save_health_records "a@x.com" hrPayload2
        (save_health_records "a@x.com" hrPayload1 emptyDb).2).2.health_records.filter
      (fun r => lowerStr r.user_email == lowerStr "a@x.com")).map
        HealthRecord.fields = [hrPayload2] :=
  ⟨health_record_unique_per_user.1 [("a@x.com", hrPayload1), ("A@x.com", hrPayload2)]
      emptyDb List.Pairwise.nil,
   health_record_unique_per_user.2 "a@x.com" hrPayload1 hrPayload2 emptyDb
      List.Pairwise.nil (by decide)⟩

/-- Selecting the matching rows right after deleting them yields nothing. -/
theorem filter_filter_not {α : Type} (p : α → Bool) (l : List α) :
    (l.filter (fun a => !(p a))).filter p = [] := by
  rw [List.filter_eq_nil_iff]
  intro a ha
  have h2 := (List.mem_filter.mp ha).2
  simp only [Bool.not_eq_eq_eq_not, Bool.not_true] at h2
  simp [h2]

/-- C7: deleting a user cascades to all four dependent tables — after
`delete_user e`, no appointment, medication, health record or activity
log row (and no user row) carries that email. -/
theorem user_delete_cascades (e : String) (s : Db) :
    (delete_user e s).users.filter (fun u => u.email == e) = [] ∧
    (delete_user e s).appointments.filter (fun a => a.user_email == e) = [] ∧
    (delete_user e s).medications.filter (fun m => m.user_email == e) = [] ∧
    (delete_user e s).health_records.filter (fun r => r.user_email == e) = [] ∧
    (delete_user e s).activity_logs.filter (fun l => l.user_email == e) = [] :=
  ⟨filter_filter_not _ _, filter_filter_not _ _, filter_filter_not _ _,
   filter_filter_not _ _, filter_filter_not _ _⟩

instance : IsTotal Appointment apptGE :=
  ⟨by
    intro a b
    rcases lt_trichotomy a.date b.date with h | h | h
    · exact Or.inr (Or.inl h)
    · rcases le_total a.time b.time with ht | ht
      · exact Or.inr (Or.inr ⟨h, ht⟩)
      · exact Or.inl (Or.inr ⟨h.symm, ht⟩)
    · exact Or.inl (Or.inl h)⟩

instance : IsTrans Appointment apptGE :=
  ⟨by
    intro a b c hab hbc
    rcases hab with h1 | h1
    · rcases hbc with h2 | h2
      · exact Or.inl (lt_trans h2 h1)
      · refine Or.inl ?_
        rw [h2.1]
        exact h1
    · rcases hbc with h2 | h2
      · refine Or.inl ?_
        rw [← h1.1]
        exact h2
      · exact Or.inr ⟨h2.1.trans h1.1, h2.2.trans h1.2⟩⟩

/-- C9: for a nonempty email, the appointment listing returns exactly
the rows whose stored email matches the input case-insensitively (a
permutation of that selection), arranged so that every earlier row is
`≥` every later one in the lexicographic-string (date, time) order —
`ORDER BY date DESC, time DESC` under SQLite's byte-wise text
comparison, which is not calendar-aware. -/
theorem appointments_listed_sorted_desc (e : String) (s : Db) (he : e ≠ "") :
    (get_appointments e s).Perm
      (s.appointments.filter (fun a => lowerStr a.user_email == lowerStr e)) ∧
    List.Sorted apptGE (get_appointments e s) := by
  unfold get_appointments
  rw [if_neg he]
  exact ⟨List.perm_insertionSort _ _, List.sorted_insertionSort _ _⟩

/-- A store with three appointments for two users, exercising the
listing theorem (note "02:00 PM" sorts above "11:00 AM" only
lexicographically). -/
def dbAppts : Db :=
  { emptyDb with
    appointments :=
      [⟨1, "a@x.com", "Dr. A", "2024-12-15", "10:00 AM"⟩,
       ⟨2, "b@y.com", "Dr. B", "2024-12-16", "09:00 AM"⟩,
       ⟨3, "A@x.com", "Dr. C", "2024-12-15", "11:00 AM"⟩]
    next_appt_id := 4 }

/-- Witness for C9: listing `A@X.com` on the three-row store. -/
theorem appointments_listed_sorted_desc_witness :
    (get_appointments "A@X.com" dbAppts).Perm
      (dbAppts.appointments.filter
        (fun a => lowerStr a.user_email == lowerStr "A@X.com")) ∧
    List.Sorted apptGE (get_appointments "A@X.com" dbAppts) :=
  appointments_listed_sorted_desc "A@X.com" dbAppts (by decide)

/-- C10: a request with an absent or blank email field makes the three
read endpoints return their empty result (empty array for appointments
and medications, empty object for health records) instead of an error;
these handlers only run `SELECT`s, so the store is untouched (they are
pure functions of it). -/
theorem blank_email_reads_empty (s : Db) :
    get_appointments "" s = [] ∧ get_medications "" s = [] ∧
    get_health_records "" s = none :=
  ⟨rfl, rfl, rfl⟩

set_option maxRecDepth 8192

/-- C8: the chat responder is a pure function of the lowercased question;
when any table keyword occurs as a substring of the question, the reply
is the canned response of the first match in the fixed iteration order
(in particular, "I have a fever and a headache" gets the fever reply,
not the headache reply); when no keyword matches, the fallback rules
apply — greeting, then "appointment", then "medication"/"medicine",
then the generic reply, in that order. -/
theorem chat_first_keyword_wins :
    (∀ q, chat q = chat (lowerStr q)) ∧
    chat "I have a fever and a headache" =
      "🌡️ For fever: Drink plenty of water, rest well, and take paracetamol 500mg if needed. If fever persists above 102°F or lasts more than 3 days, consult a doctor immediately." ∧
    chat "I have a fever and a headache" ≠
      "💆 For headache: Rest in a quiet, dark room, stay hydrated, reduce screen time, and try a cold compress on your forehead. If severe or persistent, consult a doctor." ∧
    (∀ q r, firstReply chatResponses (lowerStr q).data = some r → chat q = r) ∧
    (∀ q, firstReply chatResponses (lowerStr q).data = none →
      chat q = chatFallback (lowerStr q).data) := by
  refine ⟨?_, by decide, by decide, ?_, ?_⟩
  · intro q
    simp only [chat, lowerStr_idem]
  · intro q r h
    simp only [chat, h]
  · intro q h
    simp only [chat, h]

/-- Witness for C8: lowercase-insensitivity, a first-match hit
("cold"), and a fallback ("appointment") at concrete questions. -/
theorem chat_first_keyword_wins_witness :
    chat "Is FEVER Dangerous" = chat (lowerStr "Is FEVER Dangerous") ∧
    chat "I caught a COLD" =
      "🤧 For cold: Try steam inhalation, drink warm fluids like herbal tea or honey-lemon water, get adequate rest, and maintain good hygiene. Usually resolves in 7-10 days." ∧
    chat "book an appointment" = chatFallback (lowerStr "book an appointment").data :=
  ⟨chat_first_keyword_wins.1 "Is FEVER Dangerous",
   chat_first_keyword_wins.2.2.2.1 "I caught a COLD" _ (by decide),
   chat_first_keyword_wins.2.2.2.2 "book an appointment" (by decide)⟩
